import Mathlib

/-!
Shallow embedding of the multi-terminal session manager of the `o-face`
Electron application (`src/main.js`).

The main-process state consists of the global mutable variables
`ptyProcesses` (a JS `Map` from terminal id to pty process handle),
`nextPtyId` (auto-id counter), the availability of the `node-pty`
module, and the terminal window (live or destroyed / absent).

JS `Map` objects are modelled as association lists with `Map.get`,
`Map.set` and `Map.delete` semantics (`mapLookup`, `mapSet`,
`mapDelete`).  Spawned pty processes are modelled by `Proc` records
carrying the process id, the session id captured by their `onData` /
`onExit` closures at creation time, and a liveness flag; requesting
termination (`proc.kill()`) is recorded in `killRequested` and does
not by itself mark the process dead, since actual process exit is
asynchronous.  Messages sent to the terminal window's web contents
are modelled by the `Evt` type.
-/

set_option linter.unusedVariables false

namespace OFace

/-- One spawned pty process: its pid, the session id captured by its
`onData`/`onExit` closures when `terminal:create` registered them, and
whether the OS process is still running. -/
structure Proc where
  pid : Nat
  sessionId : String
  alive : Bool
  deriving DecidableEq

/-- The mutable main-process state relevant to the terminal subsystem
of `src/main.js`: the `ptyProcesses` map, the `nextPtyId` counter, the
set of processes spawned so far, a fresh-pid source, the pids whose
termination has been requested via `proc.kill()`, the bytes written to
each process via `proc.write`, whether `require('node-pty')` succeeded,
and whether the terminal window exists and is not destroyed. -/
structure SysState where
  registry : List (String × Nat)
  nextPtyId : Nat
  nextPid : Nat
  procs : List Proc
  killRequested : List Nat
  written : List (Nat × String)
  ptyAvailable : Bool
  windowLive : Bool
  deriving DecidableEq

/-- A message sent to the terminal window's web contents:
`terminal:data` or `terminal:exit`. -/
inductive Evt where
  | data (id : String) (chunk : String)
  | exit (id : String)
  deriving DecidableEq

/-- Result of an IPC handler that returns `{success:true}` or
`{error: msg}`. -/
inductive OpRes where
  | ok
  | error (msg : String)
  deriving DecidableEq

/-- Result of the `terminal:create` handler: a `{success:true, id, shell}`
value, a structured `{error: msg}` value, or an uncaught exception that
rejects the IPC promise. -/
inductive CreateOutcome where
  | ok (id : String) (shell : String)
  | structuredError (msg : String)
  | thrown (msg : String)
  deriving DecidableEq

/-- JS `Map.get`. -/
def mapLookup : List (String × Nat) → String → Option Nat
  | [], _ => none
  | kv :: rest, key => if kv.1 = key then some kv.2 else mapLookup rest key

/-- JS `Map.set`: update the entry in place if the key is present,
otherwise append it (insertion order preserved). -/
def mapSet : List (String × Nat) → String → Nat → List (String × Nat)
  | [], key, v => [(key, v)]
  | kv :: rest, key, v =>
    if kv.1 = key then (kv.1, v) :: rest else kv :: mapSet rest key v

/-- JS `Map.delete`: remove the entry for the key. -/
def mapDelete (m : List (String × Nat)) (key : String) : List (String × Nat) :=
  m.filter (fun kv => !(kv.1 == key))

/-- Look up a spawned process by pid. -/
def findProc : List Proc → Nat → Option Proc
  | [], _ => none
  | p :: rest, pid => if p.pid = pid then some p else findProc rest pid

/-- Mark the process with the given pid as no longer running. -/
def markExited : List Proc → Nat → List Proc
  | [], _ => []
  | p :: rest, pid =>
    if p.pid = pid then { p with alive := false } :: rest
    else p :: markExited rest pid

/-- The live processes whose creation-time session id is `id`. -/
def aliveProcsFor (s : SysState) (id : String) : List Proc :=
  s.procs.filter (fun p => p.alive && p.sessionId == id)

/-- The number of registry entries under a given id. -/
def countEntries (m : List (String × Nat)) (id : String) : Nat :=
  (m.filter (fun kv => kv.1 == id)).length

/-- The shell chosen in `terminal:create`:
`os.platform() === 'win32' ? 'powershell.exe' : 'bash'`. -/
def shellFor (win32 : Bool) : String :=
  if win32 then "powershell.exe" else "bash"

/-- The auto-generated id `` `term-${nextPtyId}` `` (decimal rendering). -/
def autoId (n : Nat) : String := "term-" ++ Nat.repr n

/-- Initial main-process state: empty `ptyProcesses`, `nextPtyId = 0`,
with the given `node-pty` availability and terminal-window liveness. -/
def initState (ptyAvail windowLive : Bool) : SysState :=
  { registry := []
    nextPtyId := 0
    nextPid := 0
    procs := []
    killRequested := []
    written := []
    ptyAvailable := ptyAvail
    windowLive := windowLive }

/-- The `terminal:create` handler (`src/main.js` lines 117-150).
`win32` is the platform test, `spawnFails` tells whether the
`pty.spawn` call throws, `terminalId` is the caller-supplied argument
(`none` when omitted).  Mirrors the source faithfully: the guard
`if (!pty)` returns a structured error before touching any state; the
expression `` terminalId || `term-${nextPtyId++}` `` treats the empty
string as falsy and increments the counter before the spawn; a spawn
exception is not caught, so it escapes the handler after the counter
increment but before any registration. -/
def createSession (win32 spawnFails : Bool) (terminalId : Option String)
    (s : SysState) : CreateOutcome × SysState :=
  if s.ptyAvailable = false then
    (CreateOutcome.structuredError "node-pty not available. Run: npm install", s)
  else
    let useAuto : Bool :=
      match terminalId with
      | none => true
      | some t => t == ""
    let id : String := if useAuto then autoId s.nextPtyId else terminalId.getD ""
    let s1 : SysState := if useAuto then { s with nextPtyId := s.nextPtyId + 1 } else s
    if spawnFails then
      (CreateOutcome.thrown "spawn failed", s1)
    else
      let pid := s1.nextPid
      (CreateOutcome.ok id (shellFor win32),
        { s1 with
          nextPid := pid + 1
          procs := s1.procs ++ [{ pid := pid, sessionId := id, alive := true }]
          registry := mapSet s1.registry id pid })

/-- The `terminal:write` handler (`src/main.js` lines 153-160). -/
def writeToSession (id data : String) (s : SysState) : OpRes × SysState :=
  match mapLookup s.registry id with
  | some pid => (OpRes.ok, { s with written := s.written ++ [(pid, data)] })
  | none => (OpRes.error ("Terminal not found: " ++ id), s)

/-- The `terminal:kill` handler (`src/main.js` lines 173-181):
`proc.kill()` requests termination, then `ptyProcesses.delete(id)`
removes the entry synchronously, inside the handler. -/
def killSession (id : String) (s : SysState) : OpRes × SysState :=
  match mapLookup s.registry id with
  | some pid =>
      (OpRes.ok,
        { s with
          killRequested := s.killRequested ++ [pid]
          registry := mapDelete s.registry id })
  | none => (OpRes.error ("Terminal not found: " ++ id), s)

/-- The `terminal:killAll` handler (`src/main.js` lines 184-191):
request termination for every registered process, clear the map, reset
the counter, return `{success:true}`. -/
def killAllSessions (s : SysState) : OpRes × SysState :=
  (OpRes.ok,
    { s with
      killRequested := s.killRequested ++ s.registry.map Prod.snd
      registry := []
      nextPtyId := 0 })

/-- The `onData` callback registered in `terminal:create` (lines
135-140): if the terminal window exists and is not destroyed, send a
`terminal:data` message; otherwise do nothing. -/
def onDataEvt (windowLive : Bool) (id data : String) : List Evt :=
  if windowLive then [Evt.data id data] else []

/-- Delivery of a whole trace of output events for one session: each
element of `tr` pairs the terminal-window liveness at the moment the
chunk arrives with the chunk itself, and the `onData` callback runs on
each in arrival order. -/
def routeChunks (id : String) (tr : List (Bool × String)) : List Evt :=
  tr.foldl (fun acc p => acc ++ onDataEvt p.1 id p.2) []

/-- Exit of the OS process with the given pid: the process stops
running and its `onExit` callback (lines 142-147) fires with the
session id captured at creation time, deleting that id from
`ptyProcesses` and sending `terminal:exit` when the terminal window is
live. -/
def processExit (pid : Nat) (s : SysState) : SysState × List Evt :=
  match findProc s.procs pid with
  | none => (s, [])
  | some p =>
      ({ s with
          procs := markExited s.procs pid
          registry := mapDelete s.registry p.sessionId },
        if s.windowLive then [Evt.exit p.sessionId] else [])

/-- The `terminalWindow.on('closed')` handler (lines 99-107): the
window ceases to exist, every registered process is killed, the map is
cleared, the counter reset. -/
def windowClosed (s : SysState) : SysState :=
  { s with
    windowLive := false
    killRequested := s.killRequested ++ s.registry.map Prod.snd
    registry := []
    nextPtyId := 0 }

/-- Creation of the terminal window (`createTerminalWindow`). -/
def windowOpened (s : SysState) : SysState := { s with windowLive := true }

/-- One step of the terminal subsystem: any IPC handler, a process
exit, or a terminal-window open/close. -/
inductive Step : SysState → SysState → Prop where
  | create (s : SysState) (w sf : Bool) (tid : Option String) :
      Step s (createSession w sf tid s).2
  | write (s : SysState) (id data : String) :
      Step s (writeToSession id data s).2
  | kill (s : SysState) (id : String) :
      Step s (killSession id s).2
  | killAll (s : SysState) :
      Step s (killAllSessions s).2
  | procExit (s : SysState) (pid : Nat) :
      Step s (processExit pid s).1
  | winClosed (s : SysState) :
      Step s (windowClosed s)
  | winOpened (s : SysState) :
      Step s (windowOpened s)

/-- A state reachable from some initial state by handler steps. -/
inductive Reachable : SysState → Prop where
  | init (pa wl : Bool) : Reachable (initState pa wl)
  | step {s t : SysState} : Reachable s → Step s t → Reachable t

/-! ### Association-list (JS `Map`) lemmas -/

theorem mapLookup_mapSet_self (m : List (String × Nat)) (k : String) (v : Nat) :
    mapLookup (mapSet m k v) k = some v := by
  induction m with
  | nil => simp [mapSet, mapLookup]
  | cons kv rest ih =>
      by_cases h : kv.1 = k
      · simp [mapSet, mapLookup, h]
      · simp [mapSet, mapLookup, h, ih]

theorem mapLookup_mapDelete_self (m : List (String × Nat)) (k : String) :
    mapLookup (mapDelete m k) k = none := by
  induction m with
  | nil => simp [mapDelete, mapLookup]
  | cons kv rest ih =>
      by_cases h : kv.1 = k
      · simpa [mapDelete, List.filter, h] using ih
      · have hbeq : (kv.1 == k) = false := beq_eq_false_iff_ne.mpr h
        simp only [mapDelete, List.filter, hbeq, Bool.not_false] at ih ⊢
        simp [mapLookup, h, ih]

theorem mem_keys_mapSet {m : List (String × Nat)} {k a : String} {v : Nat}
    (h : a ∈ (mapSet m k v).map Prod.fst) : a ∈ m.map Prod.fst ∨ a = k := by
  induction m with
  | nil =>
      simp only [mapSet, List.map_cons, List.map_nil, List.mem_cons,
        List.not_mem_nil, or_false] at h
      exact Or.inr h
  | cons kv rest ih =>
      simp only [mapSet] at h
      by_cases hk : kv.1 = k
      · rw [if_pos hk] at h
        simp only [List.map_cons, List.mem_cons] at h ⊢
        rcases h with h | h
        · exact Or.inl (Or.inl h)
        · exact Or.inl (Or.inr h)
      · rw [if_neg hk] at h
        simp only [List.map_cons, List.mem_cons] at h ⊢
        rcases h with h | h
        · exact Or.inl (Or.inl h)
        · rcases ih h with h' | h'
          · exact Or.inl (Or.inr h')
          · exact Or.inr h'

theorem nodupKeys_mapSet {m : List (String × Nat)} (k : String) (v : Nat)
    (h : (m.map Prod.fst).Nodup) : ((mapSet m k v).map Prod.fst).Nodup := by
  induction m with
  | nil => simp [mapSet]
  | cons kv rest ih =>
      simp only [List.map_cons, List.nodup_cons] at h
      simp only [mapSet]
      by_cases hk : kv.1 = k
      · rw [if_pos hk]
        simp only [List.map_cons, List.nodup_cons]
        exact ⟨h.1, h.2⟩
      · rw [if_neg hk]
        simp only [List.map_cons, List.nodup_cons]
        exact ⟨fun hmem => (mem_keys_mapSet hmem).elim h.1 (fun h' => hk h'),
          ih h.2⟩

theorem mem_keys_mapDelete {m : List (String × Nat)} {k a : String}
    (h : a ∈ (mapDelete m k).map Prod.fst) : a ∈ m.map Prod.fst := by
  rcases List.mem_map.mp h with ⟨kv, hkv, rfl⟩
  exact List.mem_map.mpr ⟨kv, List.mem_of_mem_filter hkv, rfl⟩

theorem nodupKeys_mapDelete {m : List (String × Nat)} (k : String)
    (h : (m.map Prod.fst).Nodup) : ((mapDelete m k).map Prod.fst).Nodup := by
  induction m with
  | nil => simp [mapDelete]
  | cons kv rest ih =>
      simp only [List.map_cons, List.nodup_cons] at h
      by_cases hk : kv.1 = k
      · have hbeq : (kv.1 == k) = true := beq_iff_eq.mpr hk
        simpa [mapDelete, List.filter, hbeq] using ih h.2
      · have hbeq : (kv.1 == k) = false := beq_eq_false_iff_ne.mpr hk
        simp only [mapDelete, List.filter, hbeq, Bool.not_false, List.map_cons,
          List.nodup_cons]
        exact ⟨fun hmem => h.1 (mem_keys_mapDelete hmem), ih h.2⟩

theorem countEntries_eq_zero {m : List (String × Nat)} {id : String}
    (h : id ∉ m.map Prod.fst) : countEntries m id = 0 := by
  induction m with
  | nil => rfl
  | cons kv rest ih =>
      simp only [List.map_cons, List.mem_cons, not_or] at h
      have hbeq : (kv.1 == id) = false := beq_eq_false_iff_ne.mpr (fun he => h.1 he.symm)
      simp only [countEntries, List.filter, hbeq] at ih ⊢
      exact ih h.2

theorem countEntries_le_one {m : List (String × Nat)} {id : String}
    (h : (m.map Prod.fst).Nodup) : countEntries m id ≤ 1 := by
  induction m with
  | nil => simp [countEntries]
  | cons kv rest ih =>
      simp only [List.map_cons, List.nodup_cons] at h
      by_cases hk : kv.1 = id
      · have hbeq : (kv.1 == id) = true := beq_iff_eq.mpr hk
        have hzero : countEntries rest id = 0 :=
          countEntries_eq_zero (by rw [← hk]; exact h.1)
        simp only [countEntries, List.filter, hbeq] at hzero ⊢
        simp [hzero]
      · have hbeq : (kv.1 == id) = false := beq_eq_false_iff_ne.mpr hk
        simp only [countEntries, List.filter, hbeq] at ih ⊢
        exact ih h.2

/-! ### Decimal rendering of the auto-id counter

`Nat.repr` (the decimal rendering used by the `` `term-${nextPtyId}` ``
template) is injective, so distinct counter values give distinct
auto-generated ids. -/

/-- Numeric value of a decimal digit character. -/
def digitVal (c : Char) : Nat := c.toNat - 48

/-- Value of a decimal digit string, most significant digit first. -/
def valOf (ds : List Char) : Nat :=
  ds.foldl (fun acc c => acc * 10 + digitVal c) 0

/-- Fuel-indexed decimal digit list; mirrors `Nat.toDigitsCore` with
the accumulator made explicit as a final append. -/
def decDigitsF : Nat → Nat → List Char
  | 0, _ => []
  | fuel + 1, n =>
    if n / 10 = 0 then [Nat.digitChar (n % 10)]
    else decDigitsF fuel (n / 10) ++ [Nat.digitChar (n % 10)]

theorem digitVal_digitChar : ∀ d < 10, digitVal (Nat.digitChar d) = d := by decide

theorem toDigitsCore_eq_decDigitsF :
    ∀ (fuel n : Nat) (ds : List Char), 0 < fuel → n < 10 ^ fuel →
      Nat.toDigitsCore 10 fuel n ds = decDigitsF fuel n ++ ds := by
  intro fuel
  induction fuel with
  | zero => intro n ds h _; exact absurd h (lt_irrefl 0)
  | succ f ih =>
      intro n ds _ hlt
      simp only [Nat.toDigitsCore, decDigitsF]
      by_cases hz : n / 10 = 0
      · rw [if_pos hz, if_pos hz]
        simp
      · rw [if_neg hz, if_neg hz]
        have hf : 0 < f := by
          rcases Nat.eq_zero_or_pos f with hf0 | hf0
          · subst hf0
            have hn : n < 10 := by simpa using hlt
            exact absurd (Nat.div_eq_of_lt hn) hz
          · exact hf0
        have hlt' : n / 10 < 10 ^ f := by
          have h10 : (0 : Nat) < 10 := by norm_num
          rw [Nat.div_lt_iff_lt_mul h10]
          calc n < 10 ^ (f + 1) := hlt
            _ = 10 ^ f * 10 := by rw [pow_succ]
        rw [ih (n / 10) (Nat.digitChar (n % 10) :: ds) hf hlt']
        simp

theorem foldl_decDigitsF :
    ∀ (fuel n acc : Nat), 0 < fuel → n < 10 ^ fuel →
      List.foldl (fun a c => a * 10 + digitVal c) acc (decDigitsF fuel n)
        = acc * 10 ^ (decDigitsF fuel n).length + n := by
  intro fuel
  induction fuel with
  | zero => intro n acc h _; exact absurd h (lt_irrefl 0)
  | succ f ih =>
      intro n acc _ hlt
      simp only [decDigitsF]
      by_cases hz : n / 10 = 0
      · rw [if_pos hz]
        have hn : n < 10 := by
          rcases Nat.lt_or_ge n 10 with h | h
          · exact h
          · exact absurd hz (by
              have : 0 < n / 10 := Nat.div_pos h (by norm_num)
              omega)
        simp only [List.foldl_cons, List.foldl_nil, List.length_cons,
          List.length_nil, zero_add, pow_one]
        rw [digitVal_digitChar (n % 10) (Nat.mod_lt n (by norm_num)),
          Nat.mod_eq_of_lt hn]
      · rw [if_neg hz]
        have hf : 0 < f := by
          rcases Nat.eq_zero_or_pos f with hf0 | hf0
          · subst hf0
            have hn : n < 10 := by simpa using hlt
            exact absurd (Nat.div_eq_of_lt hn) hz
          · exact hf0
        have hlt' : n / 10 < 10 ^ f := by
          have h10 : (0 : Nat) < 10 := by norm_num
          rw [Nat.div_lt_iff_lt_mul h10]
          calc n < 10 ^ (f + 1) := hlt
            _ = 10 ^ f * 10 := by rw [pow_succ]
        rw [List.foldl_append, ih (n / 10) acc hf hlt']
        simp only [List.foldl_cons, List.foldl_nil, List.length_append,
          List.length_cons, List.length_nil, zero_add]
        rw [digitVal_digitChar (n % 10) (Nat.mod_lt n (by norm_num)), pow_succ,
          ← Nat.mul_assoc]
        generalize acc * 10 ^ (decDigitsF f (n / 10)).length = A
        omega

theorem lt_ten_pow (n : Nat) : n < 10 ^ (n + 1) := by
  induction n with
  | zero => norm_num
  | succ k ih =>
      have hpos : 0 < 10 ^ (k + 1) := pow_pos (by norm_num) _
      rw [pow_succ]
      generalize hP : (10 : Nat) ^ (k + 1) = P at ih hpos ⊢
      omega

theorem toDigits_eq_decDigitsF (n : Nat) :
    Nat.toDigits 10 n = decDigitsF (n + 1) n := by
  have h := toDigitsCore_eq_decDigitsF (n + 1) n [] (Nat.succ_pos n) (lt_ten_pow n)
  simpa [Nat.toDigits] using h

theorem valOf_toDigits (n : Nat) : valOf (Nat.toDigits 10 n) = n := by
  rw [toDigits_eq_decDigitsF]
  have h := foldl_decDigitsF (n + 1) n 0 (Nat.succ_pos n) (lt_ten_pow n)
  simpa [valOf] using h

theorem data_asString (l : List Char) : (List.asString l).data = l := rfl

theorem string_data_append (a b : String) : (a ++ b).data = a.data ++ b.data := by
  cases a; cases b; rfl

theorem nat_repr_inj {m n : Nat} (h : Nat.repr m = Nat.repr n) : m = n := by
  have hd : Nat.toDigits 10 m = Nat.toDigits 10 n := by
    have h2 := congrArg String.data h
    rwa [Nat.repr, Nat.repr, data_asString, data_asString] at h2
  have h3 := congrArg valOf hd
  rwa [valOf_toDigits, valOf_toDigits] at h3

theorem autoId_inj {m n : Nat} (h : autoId m = autoId n) : m = n := by
  apply nat_repr_inj
  have h2 := congrArg String.data h
  rw [autoId, autoId, string_data_append, string_data_append] at h2
  exact String.ext (List.append_cancel_left h2)

theorem autoId_ne_empty (n : Nat) : autoId n ≠ "" := by
  intro h
  have h2 := congrArg String.data h
  rw [autoId, string_data_append] at h2
  have h3 := List.append_eq_nil.mp h2
  exact absurd h3.1 (by decide)

/-! ### Case lemmas for the handlers -/

theorem createSession_unavailable (w sf : Bool) (tid : Option String)
    (s : SysState) (h : s.ptyAvailable = false) :
    createSession w sf tid s =
      (CreateOutcome.structuredError "node-pty not available. Run: npm install", s) := by
  simp [createSession, h]

theorem createSession_none_ok (w : Bool) (s : SysState) (h : s.ptyAvailable = true) :
    createSession w false none s =
      (CreateOutcome.ok (autoId s.nextPtyId) (shellFor w),
        { s with
          nextPtyId := s.nextPtyId + 1
          nextPid := s.nextPid + 1
          procs := s.procs ++
            [{ pid := s.nextPid, sessionId := autoId s.nextPtyId, alive := true }]
          registry := mapSet s.registry (autoId s.nextPtyId) s.nextPid }) := by
  simp [createSession, h]

theorem createSession_some_ok (w : Bool) (t : String) (s : SysState)
    (ht : (t == "") = false) (h : s.ptyAvailable = true) :
    createSession w false (some t) s =
      (CreateOutcome.ok t (shellFor w),
        { s with
          nextPid := s.nextPid + 1
          procs := s.procs ++ [{ pid := s.nextPid, sessionId := t, alive := true }]
          registry := mapSet s.registry t s.nextPid }) := by
  simp [createSession, h, ht]

theorem createSession_empty_eq_none (w sf : Bool) (s : SysState) :
    createSession w sf (some "") s = createSession w sf none s := rfl

theorem createSession_none_ok_fst (w : Bool) (s : SysState)
    (h : s.ptyAvailable = true) :
    (createSession w false none s).1 =
      CreateOutcome.ok (autoId s.nextPtyId) (shellFor w) := by
  rw [createSession_none_ok w s h]

theorem createSession_none_state (w : Bool) (s : SysState)
    (h : s.ptyAvailable = true) :
    (createSession w false none s).2.nextPtyId = s.nextPtyId + 1 ∧
    (createSession w false none s).2.ptyAvailable = s.ptyAvailable := by
  rw [createSession_none_ok w s h]
  exact ⟨rfl, rfl⟩

theorem createSession_thrown (w : Bool) (tid : Option String) (s : SysState)
    (h : s.ptyAvailable = true) :
    (createSession w true tid s).1 = CreateOutcome.thrown "spawn failed" ∧
    (createSession w true tid s).2.registry = s.registry ∧
    (createSession w true tid s).2.procs = s.procs := by
  cases tid with
  | none => simp [createSession, h]
  | some t =>
      by_cases ht : (t == "") = true
      · simp [createSession, h, ht]
      · simp [createSession, h, Bool.of_not_eq_true ht]

theorem createSession_registry_cases (w sf : Bool) (tid : Option String)
    (s : SysState) :
    (createSession w sf tid s).2.registry = s.registry ∨
    ∃ k v, (createSession w sf tid s).2.registry = mapSet s.registry k v := by
  by_cases hp : s.ptyAvailable = false
  · left; rw [createSession_unavailable w sf tid s hp]
  · have hp' : s.ptyAvailable = true := by
      cases h : s.ptyAvailable
      · exact absurd h hp
      · rfl
    cases sf with
    | true => left; exact (createSession_thrown w tid s hp').2.1
    | false =>
        cases tid with
        | none =>
            right
            exact ⟨autoId s.nextPtyId, s.nextPid, by rw [createSession_none_ok w s hp']⟩
        | some t =>
            by_cases ht : (t == "") = true
            · have hte : t = "" := beq_iff_eq.mp ht
              subst hte
              rw [createSession_empty_eq_none]
              right
              exact ⟨autoId s.nextPtyId, s.nextPid, by rw [createSession_none_ok w s hp']⟩
            · right
              refine ⟨t, s.nextPid, ?_⟩
              rw [createSession_some_ok w t s (Bool.of_not_eq_true ht) hp']

theorem writeToSession_registry (id data : String) (s : SysState) :
    (writeToSession id data s).2.registry = s.registry := by
  cases h : mapLookup s.registry id <;> simp [writeToSession, h]

theorem killSession_registry_cases (id : String) (s : SysState) :
    (killSession id s).2.registry = s.registry ∨
    (killSession id s).2.registry = mapDelete s.registry id := by
  cases h : mapLookup s.registry id
  · left; simp [killSession, h]
  · right; simp [killSession, h]

theorem processExit_registry_cases (pid : Nat) (s : SysState) :
    (processExit pid s).1.registry = s.registry ∨
    ∃ k, (processExit pid s).1.registry = mapDelete s.registry k := by
  cases h : findProc s.procs pid with
  | none => left; simp [processExit, h]
  | some p => right; exact ⟨p.sessionId, by simp [processExit, h]⟩

/-- Keys of the `ptyProcesses` map are pairwise distinct in every
reachable state: the registry really is a map, holding at most one
process handle per id. -/
theorem reachable_nodup_keys {s : SysState} (h : Reachable s) :
    (s.registry.map Prod.fst).Nodup := by
  induction h with
  | init pa wl => simp [initState]
  | step hr hst ih =>
      rename_i s t
      cases hst with
      | create w sf tid =>
          rcases createSession_registry_cases w sf tid s with hreg | ⟨k, v, hreg⟩
          · rwa [hreg]
          · rw [hreg]; exact nodupKeys_mapSet k v ih
      | write id data => rwa [writeToSession_registry]
      | kill id =>
          rcases killSession_registry_cases id s with hreg | hreg
          · rwa [hreg]
          · rw [hreg]; exact nodupKeys_mapDelete id ih
      | killAll => simp [killAllSessions]
      | procExit pid =>
          rcases processExit_registry_cases pid s with hreg | ⟨k, hreg⟩
          · rwa [hreg]
          · rw [hreg]; exact nodupKeys_mapDelete k ih
      | winClosed => simp [windowClosed]
      | winOpened => rwa [windowOpened]

theorem routeChunks_aux (id : String) :
    ∀ (tr : List (Bool × String)) (acc : List Evt), (∀ p ∈ tr, p.1 = true) →
      tr.foldl (fun a p => a ++ onDataEvt p.1 id p.2) acc
        = acc ++ tr.map (fun p => Evt.data id p.2) := by
  intro tr
  induction tr with
  | nil => intro acc _; simp
  | cons q rest ih =>
      intro acc h
      have hq : q.1 = true := h q (List.mem_cons_self q rest)
      simp only [List.foldl_cons, List.map_cons]
      rw [ih (acc ++ onDataEvt q.1 id q.2) (fun p hp => h p (List.mem_cons_of_mem q hp)),
        hq]
      simp [onDataEvt]

/-! ### Concrete example states -/

/-- State after one auto-id `terminal:create` from the initial state
(node-pty available, terminal window live). -/
def exAuto : SysState := (createSession false false none (initState true true)).2

/-- State after `terminal:create` with the caller-supplied id `"x"`. -/
def exX1 : SysState := (createSession false false (some "x") (initState true true)).2

/-- State after a second `terminal:create` with the same id `"x"`. -/
def exX2 : SysState := (createSession false false (some "x") exX1).2

/-- State with one session spawned while the terminal window is absent. -/
def exNoWin : SysState := (createSession false false none (initState true false)).2

/-! ### Claims -/

/-- C1 counterexample: with `"x"` registered, `terminal:kill "x"` returns
`{success:true}` and the entry is already gone from the registry when the
handler returns — it does not stay until the exit event is processed. -/
theorem C1_counterexample :
    mapLookup exX1.registry "x" = some 0 ∧
    (killSession "x" exX1).1 = OpRes.ok ∧
    mapLookup (killSession "x" exX1).2.registry "x" = none := by decide

/-- C1 (amended): for every registered session id, `terminal:kill`
returns `{success:true}`, requests process termination, and removes the
session's entry from the registry synchronously inside the call (the
later exit callback's delete finds nothing left to remove). -/
theorem C1_kill_removes_synchronously (s : SysState) (id : String) (pid : Nat)
    (h : mapLookup s.registry id = some pid) :
    (killSession id s).1 = OpRes.ok ∧
    pid ∈ (killSession id s).2.killRequested ∧
    mapLookup (killSession id s).2.registry id = none := by
  refine ⟨?_, ?_, ?_⟩ <;>
    simp [killSession, h, mapLookup_mapDelete_self]

/-- Witness for C1: the amended theorem applied to a concrete state. -/
theorem C1_kill_removes_synchronously_witness :
    (killSession "x" exX1).1 = OpRes.ok ∧
    0 ∈ (killSession "x" exX1).2.killRequested ∧
    mapLookup (killSession "x" exX1).2.registry "x" = none :=
  C1_kill_removes_synchronously exX1 "x" 0 (by decide)

/-- C2 counterexample: with `"x"` still registered, a second
`terminal:create` supplying `"x"` succeeds, spawns a second process that
is live at the same time as the first, and overwrites the registry entry
— the id is reused before the prior session has exited. -/
theorem C2_counterexample :
    mapLookup exX1.registry "x" = some 0 ∧
    (createSession false false (some "x") exX1).1 = CreateOutcome.ok "x" "bash" ∧
    (aliveProcsFor exX2 "x").length = 2 ∧
    mapLookup exX2.registry "x" = some 1 := by decide

/-- C2 (amended): the registry holds at most one entry per id in every
reachable state, but a `terminal:create` call supplying a
still-registered id does produce a second live process handle for that
id: it spawns a fresh process and overwrites the registry entry, leaving
the prior process running but unregistered, so an id is reusable before
its prior session has exited and been removed. -/
theorem C2_registry_overwrite :
    (∀ s : SysState, Reachable s → ∀ id : String, countEntries s.registry id ≤ 1) ∧
    (∀ (w : Bool) (s : SysState) (id : String) (pid : Nat),
      mapLookup s.registry id = some pid → s.ptyAvailable = true →
      (id == "") = false → pid < s.nextPid →
      (createSession w false (some id) s).1 = CreateOutcome.ok id (shellFor w) ∧
      mapLookup (createSession w false (some id) s).2.registry id = some s.nextPid ∧
      s.nextPid ≠ pid ∧
      (∀ p ∈ s.procs, p ∈ (createSession w false (some id) s).2.procs) ∧
      { pid := s.nextPid, sessionId := id, alive := true } ∈
        (createSession w false (some id) s).2.procs) := by
  constructor
  · intro s hs id
    exact countEntries_le_one (reachable_nodup_keys hs)
  · intro w s id pid hreg hpty hne hlt
    rw [createSession_some_ok w id s hne hpty]
    refine ⟨rfl, mapLookup_mapSet_self _ _ _, by omega, ?_, ?_⟩
    · intro p hp; exact List.mem_append_left _ hp
    · exact List.mem_append_right _ (List.mem_singleton.mpr rfl)

/-- Witness for C2: both parts of the amended theorem applied to a
concrete reachable state with `"x"` registered. -/
theorem C2_registry_overwrite_witness :
    countEntries exX1.registry "x" ≤ 1 ∧
    mapLookup (createSession false false (some "x") exX1).2.registry "x" =
      some exX1.nextPid :=
  ⟨C2_registry_overwrite.1 exX1
      (Reachable.step (Reachable.init true true)
        (Step.create (initState true true) false false (some "x"))) "x",
    (C2_registry_overwrite.2 false exX1 "x" 0 (by decide) (by decide) (by decide)
        (by decide)).2.1⟩

/-- C3: `terminal:killAll` returns `{success:true}`, requests
termination for every registered session, leaves the registry empty and
resets the auto-id counter to 0, so that a subsequent `terminal:create`
without an id (node-pty available, spawn succeeding) returns the id
`"term-0"`. -/
theorem C3_killAll_full_reset (w : Bool) (s : SysState) :
    (killAllSessions s).1 = OpRes.ok ∧
    (killAllSessions s).2.registry = [] ∧
    (killAllSessions s).2.nextPtyId = 0 ∧
    (∀ e ∈ s.registry, e.2 ∈ (killAllSessions s).2.killRequested) ∧
    (s.ptyAvailable = true →
      (createSession w false none (killAllSessions s).2).1 =
        CreateOutcome.ok "term-0" (shellFor w)) := by
  refine ⟨rfl, rfl, rfl, ?_, ?_⟩
  · intro e he
    simp only [killAllSessions]
    exact List.mem_append_right _ (List.mem_map.mpr ⟨e, he, rfl⟩)
  · intro hpty
    rw [createSession_none_ok_fst w (killAllSessions s).2 hpty]
    show CreateOutcome.ok (autoId 0) (shellFor w) = CreateOutcome.ok "term-0" (shellFor w)
    rw [show autoId 0 = "term-0" from by decide]

/-- Witness for C3: the theorem applied to a concrete state with one
registered session. -/
theorem C3_killAll_full_reset_witness :
    (killAllSessions exX1).1 = OpRes.ok ∧
    (killAllSessions exX1).2.registry = [] ∧
    (killAllSessions exX1).2.nextPtyId = 0 ∧
    (createSession false false none (killAllSessions exX1).2).1 =
      CreateOutcome.ok "term-0" (shellFor false) :=
  ⟨(C3_killAll_full_reset false exX1).1, (C3_killAll_full_reset false exX1).2.1,
    (C3_killAll_full_reset false exX1).2.2.1,
    (C3_killAll_full_reset false exX1).2.2.2.2 rfl⟩

/-- C4: `terminal:create` without an id assigns `"term-" +` the current
counter value; two consecutive such calls return distinct ids whose
counter components are strictly increasing. -/
theorem C4_auto_ids_increasing (w : Bool) (s : SysState)
    (hpty : s.ptyAvailable = true) :
    (createSession w false none s).1 =
      CreateOutcome.ok (autoId s.nextPtyId) (shellFor w) ∧
    (createSession w false none (createSession w false none s).2).1 =
      CreateOutcome.ok (autoId (s.nextPtyId + 1)) (shellFor w) ∧
    autoId s.nextPtyId ≠ autoId (s.nextPtyId + 1) ∧
    s.nextPtyId < s.nextPtyId + 1 := by
  refine ⟨createSession_none_ok_fst w s hpty, ?_, ?_, Nat.lt_succ_self _⟩
  · have hs2 := createSession_none_state w s hpty
    rw [createSession_none_ok_fst w (createSession w false none s).2
        (by rw [hs2.2, hpty]), hs2.1]
  · intro he
    exact Nat.succ_ne_self s.nextPtyId (autoId_inj he).symm

/-- Witness for C4: the theorem applied to the initial state. -/
theorem C4_auto_ids_increasing_witness :
    (createSession false false none (initState true true)).1 =
      CreateOutcome.ok (autoId 0) (shellFor false) ∧
    (createSession false false none
        (createSession false false none (initState true true)).2).1 =
      CreateOutcome.ok (autoId 1) (shellFor false) ∧
    autoId 0 ≠ autoId 1 ∧
    (0 : Nat) < 1 :=
  C4_auto_ids_increasing false (initState true true) rfl

/-- C5: when node-pty is unavailable, `terminal:create` returns the
structured `{error: ...}` result and leaves the entire state — registry,
counter, spawned processes — unchanged: no spawn is attempted. -/
theorem C5_capability_unavailable (w sf : Bool) (tid : Option String)
    (s : SysState) (h : s.ptyAvailable = false) :
    createSession w sf tid s =
      (CreateOutcome.structuredError "node-pty not available. Run: npm install", s) :=
  createSession_unavailable w sf tid s h

/-- Witness for C5: the theorem applied to an initial state without
node-pty. -/
theorem C5_capability_unavailable_witness :
    createSession false false none (initState false true) =
      (CreateOutcome.structuredError "node-pty not available. Run: npm install",
        initState false true) :=
  C5_capability_unavailable false false none (initState false true) rfl

/-- C6: `terminal:write` with an unregistered id returns the
`Terminal not found` error and leaves the state completely unchanged. -/
theorem C6_write_unknown_id (id data : String) (s : SysState)
    (h : mapLookup s.registry id = none) :
    writeToSession id data s = (OpRes.error ("Terminal not found: " ++ id), s) := by
  simp [writeToSession, h]

/-- Witness for C6: the theorem applied to the empty registry. -/
theorem C6_write_unknown_id_witness :
    writeToSession "nope" "x" (initState true true) =
      (OpRes.error ("Terminal not found: " ++ "nope"), initState true true) :=
  C6_write_unknown_id "nope" "x" (initState true true) rfl

/-- C7 counterexample: when `pty.spawn` throws, the exception escapes
the `terminal:create` handler (rejecting the IPC promise) instead of
being returned as a structured error result; the registry stays empty
but the auto-id counter has already been incremented. -/
theorem C7_counterexample :
    (createSession false true none (initState true true)).1 =
      CreateOutcome.thrown "spawn failed" ∧
    (createSession false true none (initState true true)).2.registry = [] ∧
    (createSession false true none (initState true true)).2.nextPtyId = 1 := by decide

/-- C7 (amended): if the underlying spawn fails during
`terminal:create`, the failure propagates as a thrown exception across
the IPC boundary (the handler does not catch it), and the session is not
registered: the registry and the spawned-process list are unchanged by
the failed call. -/
theorem C7_spawn_failure_thrown (w : Bool) (tid : Option String) (s : SysState)
    (hpty : s.ptyAvailable = true) :
    (createSession w true tid s).1 = CreateOutcome.thrown "spawn failed" ∧
    (createSession w true tid s).2.registry = s.registry ∧
    (createSession w true tid s).2.procs = s.procs :=
  createSession_thrown w tid s hpty

/-- Witness for C7: the amended theorem applied to the initial state. -/
theorem C7_spawn_failure_thrown_witness :
    (createSession false true none (initState true true)).1 =
      CreateOutcome.thrown "spawn failed" ∧
    (createSession false true none (initState true true)).2.registry =
      (initState true true).registry ∧
    (createSession false true none (initState true true)).2.procs =
      (initState true true).procs :=
  C7_spawn_failure_thrown false none (initState true true) rfl

/-- C8: while the terminal window is live, the `onData` callback
delivers the chunks produced by a session's process to the display
surface in the order produced, one `terminal:data` message per chunk —
no reordering, merging, or splitting across chunk boundaries. -/
theorem C8_per_session_order (id : String) (tr : List (Bool × String))
    (h : ∀ p ∈ tr, p.1 = true) :
    routeChunks id tr = tr.map (fun p => Evt.data id p.2) := by
  unfold routeChunks
  exact (routeChunks_aux id tr [] h).trans (by simp)

/-- Witness for C8: a two-chunk trace. -/
theorem C8_per_session_order_witness :
    routeChunks "t" [(true, "a"), (true, "b")] =
      [Evt.data "t" "a", Evt.data "t" "b"] :=
  C8_per_session_order "t" [(true, "a"), (true, "b")] (by decide)

/-- C9: `terminal:create` with the empty string as the supplied id
behaves exactly as if the id had been omitted — the `||` default kicks
in, the session is registered under the next auto-generated
`"term-<counter>"` id, and the returned id is not the empty string. -/
theorem C9_empty_id_treated_as_omitted (w : Bool) (s : SysState)
    (hpty : s.ptyAvailable = true) :
    createSession w false (some "") s = createSession w false none s ∧
    (createSession w false (some "") s).1 =
      CreateOutcome.ok (autoId s.nextPtyId) (shellFor w) ∧
    mapLookup (createSession w false (some "") s).2.registry (autoId s.nextPtyId) =
      some s.nextPid ∧
    autoId s.nextPtyId ≠ "" := by
  refine ⟨createSession_empty_eq_none w false s, ?_, ?_, autoId_ne_empty _⟩
  · rw [createSession_empty_eq_none, createSession_none_ok w s hpty]
  · rw [createSession_empty_eq_none, createSession_none_ok w s hpty]
    exact mapLookup_mapSet_self _ _ _

/-- Witness for C9: the theorem applied to the initial state. -/
theorem C9_empty_id_treated_as_omitted_witness :
    createSession false false (some "") (initState true true) =
      createSession false false none (initState true true) ∧
    (createSession false false (some "") (initState true true)).1 =
      CreateOutcome.ok (autoId 0) (shellFor false) ∧
    mapLookup (createSession false false (some "") (initState true true)).2.registry
        (autoId 0) = some 0 ∧
    autoId 0 ≠ "" :=
  C9_empty_id_treated_as_omitted false (initState true true) rfl

/-- C10: when the terminal window does not exist or is destroyed, a
session's output chunk produces no message at all, and a process exit
produces no message either — both are silently dropped — yet the exit
still removes the session's entry from the registry. -/
theorem C10_window_gone_drops_events (s : SysState) (pid : Nat) (p : Proc)
    (d : String) (hwl : s.windowLive = false)
    (hp : findProc s.procs pid = some p) :
    onDataEvt s.windowLive p.sessionId d = [] ∧
    (processExit pid s).2 = [] ∧
    mapLookup (processExit pid s).1.registry p.sessionId = none := by
  refine ⟨by simp [onDataEvt, hwl], ?_, ?_⟩
  · simp [processExit, hp, hwl]
  · simp [processExit, hp, mapLookup_mapDelete_self]

/-- Witness for C10: a session spawned while the window is absent. -/
theorem C10_window_gone_drops_events_witness :
    onDataEvt exNoWin.windowLive "term-0" "hi" = [] ∧
    (processExit 0 exNoWin).2 = [] ∧
    mapLookup (processExit 0 exNoWin).1.registry "term-0" = none :=
  C10_window_gone_drops_events exNoWin 0
    { pid := 0, sessionId := "term-0", alive := true } "hi" (by decide) (by decide)

end OFace
